import Mathlib

/-!
Verification of the snapcast Sonos LLA playback fragment.

Shallow embedding of:
- the per-sample conversion loop of `SonosLLAPlayer::worker`
  (src/client/player/sonoslla_player.cpp, the `#if 1` "swizzling" branch),
- `SonosLLAPlayer::start` / `init` error handling,
- `SonosLLAPlayer::uninit` resource release,
- `SonosLLAPlayer::pcm_list` device enumeration,
- the worker loop's control flow as a small-step machine, and
- the server session's staleness policy (modelled from the spec, since only
  the `StreamSession` declaration is part of the sampled sources).

Bytes are `Nat` values below 256; machine integers are `Int` with explicit
two's-complement reduction where the width matters.
-/

namespace Snapcast

/-- Sample format of a stream: channel count, bits per sample, sample rate
(Hz). Mirrors the `SampleFormat` attributes used by the player. -/
structure SampleFormat where
  channels : Nat
  bits : Nat
  rate : Nat

/-- Frame size in bytes: `channels * (bits / 8)`. -/
def SampleFormat.frameSize (f : SampleFormat) : Nat :=
  f.channels * (f.bits / 8)

/-- Modelled from the spec: frames-per-millisecond is `sampleRate / 1000`
(§3, "Derived: ... frames-per-millisecond = sampleRate/1000"); the
`SampleFormat::msRate` implementation itself is not among the sampled
sources. -/
def SampleFormat.msRate (f : SampleFormat) : Nat :=
  f.rate / 1000

/-! ## Sample conversion (worker, sonoslla_player.cpp lines 219-228)

The active conversion branch reads the retrieved byte buffer through an
`int16_t*`, and for each output index `i` does

    int32_t temp_sample = 0;
    memcpy((void *)&temp_sample, &p[i], bytes_per_sample);
    bd.samples[i] = __le32_to_cpu(temp_sample);

On a little-endian host (`__le32_to_cpu` is the identity) this places the
`bytes_per_sample` source bytes at offset `2 * i` into the low bytes of a
zero-initialised 32-bit word. -/

/-- Little-endian value of a byte list: byte `k` contributes `b * 256 ^ k`. -/
def leVal : List Nat → Nat
  | [] => 0
  | b :: rest => b % 256 + 256 * leVal rest

/-- Two's-complement signed reading of a 32-bit pattern. -/
def toInt32 (u : Nat) : Int :=
  let v := u % 4294967296
  if v < 2147483648 then (v : Int) else (v : Int) - 4294967296

/-- The worker's per-sample conversion on a little-endian host:
`temp_sample` starts at 0, `memcpy` copies `bps` bytes of the 16-bit-indexed
source `p[i]` into its low bytes, and the word is stored into the `int32_t`
device array. Bytes missing from the buffer read as 0. -/
def swizzleSample (bytes : List Nat) (bps i : Nat) : Int :=
  toInt32 (leVal ((bytes.drop (2 * i)).take bps))

/-- The worker's conversion loop: produces `count = numFrames * num_channels`
device samples, in input order. -/
def swizzle (bytes : List Nat) (bps count : Nat) : List Int :=
  (List.range count).map (fun i => swizzleSample bytes bps i)

/-- Two's-complement `int16` value of two little-endian bytes: the
sign-extending reading of the source samples that exact conversion
requires. -/
def le16ToInt (b0 b1 : Nat) : Int :=
  let u := b0 % 256 + 256 * (b1 % 256)
  if u < 32768 then (u : Int) else (u : Int) - 65536

/-- Little-endian byte encoding of an `int16` value. -/
def int16LEBytes (v : Int) : List Nat :=
  let u := (v % 65536).toNat
  [u % 256, u / 256]

/-- Interleaved little-endian byte stream of a list of `int16` samples, as a
2-channel 16-bit chunk lays them out. -/
def int16StreamBytes (vs : List Int) : List Nat :=
  (vs.map int16LEBytes).flatten

/-! ## Device enumeration (`SonosLLAPlayer::pcm_list`) -/

/-- A playback device entry `{id, name, description}`. -/
structure PcmDevice where
  idx : Nat
  name : String
  description : String
deriving DecidableEq

def kAlsaDescription : String := "Sonos Alsa output"

def kLLADescription : String := "Sonos LLA output"

/-- Embedding of `SonosLLAPlayer::pcm_list`: ignores its parameter and returns the single
compile-time device entry (under `SONOS_ARCH_ATTR_USES_LLA` the LLA entry,
otherwise the ALSA entry). -/
def pcm_list (usesLLA : Bool) (parameter : String) : List PcmDevice :=
  (fun _ => if usesLLA then [⟨0, "lla", kLLADescription⟩]
            else [⟨0, "alsa", kAlsaDescription⟩]) parameter

/-! ## Staleness policy (server session)

Only the `StreamSession` declaration (stream_session_1.hpp) is among the
sampled sources; the transmit/drop decision is modelled from the spec. -/

/-- Outcome of evaluating one outgoing audio chunk: it is either transmitted
or silently dropped; there is no error outcome. -/
inductive ChunkDecision where
  | transmitted
  | dropped
deriving DecidableEq

/-- Modelled from the spec: "given a staleness bound B and a chunk whose
timestamp lags the stream clock by L, the session transmits the chunk iff
`L <= B`; boundary case `L == B` transmits" (§8); "if that lag exceeds the
bound, the chunk is dropped rather than sent" (§4.2). The
`StreamSession::sendAsync` implementation is not among the sampled
sources. -/
def evaluateChunk (B L : Nat) : ChunkDecision :=
  if L ≤ B then .transmitted else .dropped

/-! ## Startup (`SonosLLAPlayer::start`) -/

/-- Linux `EBUSY` ("Device or resource busy"). -/
def EBUSY : Int := 16

/-- Outcome of `SonosLLAPlayer::init()`: success, or a thrown
`SnapException` carrying an error code. -/
inductive InitOutcome where
  | success
  | failure (code : Int)

/-- Result of `SonosLLAPlayer::start()`: either `Player::start()` was
reached (modelled from the spec as leaving the engine `Running` with the
worker loop started), or the exception propagated out and the loop was not
started. -/
inductive StartResult where
  | running
  | raised (code : Int)
deriving DecidableEq

/-- Embedding of `SonosLLAPlayer::start`: calls `init()`; a `SnapException` is caught and
re-thrown unless its code is exactly `-EBUSY`, in which case execution falls
through to `Player::start()`. -/
def start (r : InitOutcome) : StartResult :=
  match r with
  | .success => .running
  | .failure c => if c = -EBUSY then .running else .raised c

/-! ## Resource release (`SonosLLAPlayer::uninit`) -/

/-- Releasable state of the player: whether the input/output plugin instance
tokens are non-null and whether `bd.samples` is allocated. -/
structure LLAState where
  inToken : Bool
  outToken : Bool
  samplesAllocated : Bool
deriving DecidableEq

/-- Observable release actions performed by `uninit`. -/
inductive Effect where
  | platformExit
  | closeIn
  | closeOut
  | freeSamples
deriving DecidableEq

/-- Embedding of `SonosLLAPlayer::uninit`: unconditionally calls `platform_exit`, calls
each instance's `close_fun` only when its token is non-null (the token
member itself is not cleared), and frees `bd.samples` only when non-null,
nulling the pointer afterwards. -/
def uninit (s : LLAState) : LLAState × List Effect :=
  ({ s with samplesAllocated := false },
    [Effect.platformExit]
      ++ (if s.inToken then [Effect.closeIn] else [])
      ++ (if s.outToken then [Effect.closeOut] else [])
      ++ (if s.samplesAllocated then [Effect.freeSamples] else []))

/-! ## Worker iteration body (`SonosLLAPlayer::worker`, one pass)

State touched by one pass of the loop body after the inner chunk-wait:
`buffer_`, `bd.num_samples`, `bd.samples`, plus traces of the
`write_fun` payloads and of the timeouts passed to
`getPlayerChunkOrSilence`. -/

/-- Mutable worker state (`buffer_`, `bd`) plus observation traces. -/
structure WorkerState where
  buffer : List Nat
  bdNumSamples : Nat
  bdSamples : List Int
  writes : List (List Int)
  timeouts : List Nat

/-- External inputs consumed by one pass of the loop body: the chunk the
queue yields (`none` means the timeout expired and silence was
substituted), and the device write's result (which the code discards). -/
structure IterInput where
  chunk : Option (List Nat)
  writeOk : Bool

/-- Growth behaviour of `std::vector::resize`: pads with zero bytes; the code only
resizes when `buffer_.size() < needed`. -/
def resizeTo (l : List Nat) (n : Nat) : List Nat :=
  if l.length < n then l ++ List.replicate (n - l.length) 0 else l

/-- Writing `src` at offset 0 of `dst`, keeping `dst`'s tail beyond
`src.length`. -/
def writeBytes (dst src : List Nat) : List Nat :=
  src ++ dst.drop src.length

/-- Modelled from the spec: the Chunk Queue's
`getChunkOrSilence(outBuffer, timeout, frameCount) -> bool`
(`false` ⇒ silence was substituted, §6); on failure "the engine's output
buffer for that iteration is all-zero bytes of the expected length" (§8),
on success the retrieved chunk's `needed` bytes are written into the
buffer. The `Stream::getPlayerChunkOrSilence` implementation is not among
the sampled sources. -/
def getPlayerChunkOrSilence (buf : List Nat) (needed : Nat)
    (chunk : Option (List Nat)) : Bool × List Nat :=
  match chunk with
  | none => (false, writeBytes buf (List.replicate needed 0))
  | some data =>
      (true, writeBytes buf (data.take needed ++ List.replicate (needed - data.length) 0))

/-- Retrieval time budget computed at the top of each iteration:
`int time = bd.num_samples / stream_->getFormat().msRate();`. -/
def timeBudget (fmt : SampleFormat) (numSamples : Nat) : Nat :=
  numSamples / fmt.msRate

/-- One pass of the worker loop body, parameterised by the volume scaling
`vol` (`Player::adjustVolume`, applied in place to the raw bytes only in
the chunk branch): compute the time budget, grow `buffer_` to
`numFrames * frameSize` if needed, retrieve a chunk or silence, apply
volume only when real samples were obtained, convert every
`numFrames * num_channels` sample into the `int32` device array, set
`bd.num_samples`, and hand the converted buffer to `write_fun` (whose
result `inp.writeOk` is discarded). -/
def workerIter (fmt : SampleFormat) (vol : List Nat → List Nat)
    (inp : IterInput) (s : WorkerState) : WorkerState :=
  let time := timeBudget fmt s.bdNumSamples
  let numFrames := s.bdNumSamples
  let needed := numFrames * fmt.frameSize
  let buf0 := resizeTo s.buffer needed
  let gr := getPlayerChunkOrSilence buf0 needed inp.chunk
  let buf2 := if gr.1 then vol gr.2 else gr.2
  let samples := swizzle buf2 (fmt.bits / 8) (numFrames * fmt.channels)
  { buffer := buf2
    bdNumSamples := numFrames
    bdSamples := samples
    writes := s.writes ++ [samples]
    timeouts := s.timeouts ++ [time] }

/-! ## Worker loop control flow (small-step machine)

The loop is

    while (active_) {
        int time = ...;
        while (active_ && !stream_->waitForChunk(100ms)) { log; }
        <body: getPlayerChunkOrSilence / adjustVolume / convert / write>
    }

modelled as a machine whose environment supplies the k-th read of
`active_`, the k-th `waitForChunk` result, the k-th retrieved chunk and the
k-th device write result. -/

/-- Environment of the worker thread: successive reads of the atomic
`active_` flag, successive `waitForChunk(100ms)` results, successive chunk
retrievals and device write results. -/
structure Env where
  active : Nat → Bool
  waitChunk : Nat → Bool
  chunk : Nat → Option (List Nat)
  writeOk : Nat → Bool

/-- How many environment events each kind the machine has consumed. -/
structure Counters where
  a : Nat
  w : Nat
  c : Nat
deriving DecidableEq

/-- Control position of the worker thread: about to test the outer `while`
condition, about to test the inner chunk-wait condition, or about to run
the loop body. -/
inductive Phase where
  | outerCheck
  | innerCheck
  | body
deriving DecidableEq

/-- Worker machine: control position, consumed-event counters, worker
state, and whether the loop has exited. -/
structure Machine where
  phase : Phase
  k : Counters
  s : WorkerState
  exited : Bool

/-- One step of the worker machine. The outer check reads `active_` and
exits when it is false; the inner check reads `active_` (leaving the wait
loop towards the body when false) and otherwise consumes one
`waitForChunk` result, leaving towards the body exactly when a chunk
became available; the body runs one `workerIter` pass, consuming one chunk
retrieval and one write result, and unconditionally returns to the outer
check. -/
def step (fmt : SampleFormat) (vol : List Nat → List Nat) (env : Env)
    (m : Machine) : Machine :=
  if m.exited then m
  else
    match m.phase with
    | .outerCheck =>
        if env.active m.k.a then
          { m with phase := .innerCheck, k := { m.k with a := m.k.a + 1 } }
        else
          { m with exited := true, k := { m.k with a := m.k.a + 1 } }
    | .innerCheck =>
        if env.active m.k.a then
          if env.waitChunk m.k.w then
            { m with phase := .body, k := { m.k with a := m.k.a + 1, w := m.k.w + 1 } }
          else
            { m with phase := .innerCheck, k := { m.k with a := m.k.a + 1, w := m.k.w + 1 } }
        else
          { m with phase := .body, k := { m.k with a := m.k.a + 1 } }
    | .body =>
        { m with phase := .outerCheck,
                 k := { m.k with c := m.k.c + 1 },
                 s := workerIter fmt vol ⟨env.chunk m.k.c, env.writeOk m.k.c⟩ m.s }

/-- Iterating `n` steps of the worker machine. -/
def run (fmt : SampleFormat) (vol : List Nat → List Nat) (env : Env)
    (n : Nat) (m : Machine) : Machine :=
  match n with
  | 0 => m
  | n + 1 => run fmt vol env n (step fmt vol env m)

/-- The worker machine as entered from `Player::start` with the device
buffer sized to `N` samples. -/
def initMachine (N : Nat) : Machine :=
  { phase := .outerCheck
    k := ⟨0, 0, 0⟩
    s := { buffer := [], bdNumSamples := N, bdSamples := [], writes := [], timeouts := [] }
    exited := false }

/-! ## Sample-buffer allocation bound (`init` / conversion loop) -/

/-- Bytes allocated for `bd.samples` by `init`:
`bd.num_samples * MAX_NUM_CHANNELS * SAMPLE_SIZE`. -/
def allocBytes (numSamples maxChannels sampleSize : Nat) : Nat :=
  numSamples * maxChannels * sampleSize

/-- All `numSamples * channels` int32 stores of the conversion loop stay
inside the allocation: the last store ends at byte
`4 * (numSamples * channels)`. -/
def writesInBounds (numSamples channels maxChannels sampleSize : Nat) : Prop :=
  4 * (numSamples * channels) ≤ allocBytes numSamples maxChannels sampleSize

/-! ## Theorems -/

/-- C1: at the spec's own test vector (2 channels, 16-bit, samples
`[100, -100, 200, -200]`) the worker's conversion loop preserves the
interleaved order and the non-negative samples, but zero-extends the
negative ones — `temp_sample` is zero-initialised and `memcpy` copies only
`bytes_per_sample = 2` bytes — so the device receives
`[100, 65436, 200, 65336]` instead of the required sign-extended
`[100, -100, 200, -200]` (whose int16 readings are checked alongside). -/
theorem c1_conversion_zero_extends_negatives :
    swizzle (int16StreamBytes [100, -100, 200, -200]) 2 4 = [100, 65436, 200, 65336] ∧
    swizzle (int16StreamBytes [100, -100, 200, -200]) 2 4 ≠ [100, -100, 200, -200] ∧
    le16ToInt 156 255 = -100 ∧ le16ToInt 56 255 = -200 := by
  refine ⟨by decide, by decide, by decide, by decide⟩

/-- C10: `pcm_list` returns exactly one device entry with id 0, fixed at
compile time by the architecture flag; the parameter string never affects
the result. -/
theorem c10_pcm_list_constant (u : Bool) (p q : String) :
    pcm_list u p = pcm_list u q ∧ (pcm_list u p).map PcmDevice.idx = [0] := by
  cases u <;> exact ⟨rfl, rfl⟩

/-- C4: with staleness bound B and lag L, the session transmits the chunk
iff `L ≤ B`; the boundary `L = B` transmits; and the evaluation is total
with no error outcome — a drop is silent flow control. -/
theorem c4_staleness_transmit_iff (B L : Nat) :
    (evaluateChunk B L = .transmitted ↔ L ≤ B) ∧
    evaluateChunk B B = .transmitted ∧
    (evaluateChunk B L = .transmitted ∨ evaluateChunk B L = .dropped) := by
  unfold evaluateChunk
  refine ⟨?_, by simp, ?_⟩
  · split_ifs with h <;> simp [h]
  · split_ifs <;> simp

/-- C2: `start()` reaches `Player::start()` on successful `init()` and when
`init()` throws with code exactly `-EBUSY`; any other failure code
propagates out of `start()` unchanged and the loop is not started. -/
theorem c2_start_tolerates_only_ebusy :
    start .success = .running ∧
    start (.failure (-EBUSY)) = .running ∧
    ∀ c : Int, c ≠ -EBUSY → start (.failure c) = .raised c := by
  refine ⟨rfl, by decide, ?_⟩
  intro c hc
  simp [start, hc]

/-- Witness for C2 at the concrete non-busy code -5. -/
theorem c2_start_witness :
    (-5 : Int) ≠ -EBUSY ∧ start (.failure (-5)) = .raised (-5) :=
  ⟨by decide, c2_start_tolerates_only_ebusy.2.2 (-5) (by decide)⟩

/-- C6 counterexample: after a completed `init` (output token non-null,
samples allocated), `uninit` does not clear the token, so the second
`uninit` call — e.g. the destructor's `stop()` after an explicit `stop()` —
invokes `close_fun` on the output instance a second time: the claimed
"no double close" fails. -/
theorem c6_second_uninit_closes_again :
    Effect.closeOut ∈ (uninit ⟨false, true, true⟩).2 ∧
    Effect.closeOut ∈ (uninit (uninit ⟨false, true, true⟩).1).2 := by
  decide

/-- C6 amended: `uninit` frees and closes only non-null handles and nulls
the sample-buffer pointer, so a second call performs no double free and is
a pure `platform_exit` no-op when nothing was allocated; but the instance
tokens are left set, so a second call re-invokes `close_fun` on any
still-non-null token. -/
theorem c6_uninit_no_double_free (s : LLAState) :
    Effect.freeSamples ∉ (uninit (uninit s).1).2 ∧
    (uninit s).1.samplesAllocated = false ∧
    (uninit s).1.inToken = s.inToken ∧
    (uninit s).1.outToken = s.outToken ∧
    uninit ⟨false, false, false⟩ = (⟨false, false, false⟩, [Effect.platformExit]) := by
  obtain ⟨i, o, a⟩ := s
  cases i <;> cases o <;> cases a <;> decide

/-- C9 counterexample: with `MAX_NUM_CHANNELS = 1` and `SAMPLE_SIZE = 8`, a
2-channel stream's conversion writes all stay inside the allocation even
though the channel count exceeds `MAX_NUM_CHANNELS`: the claimed
"precisely when" equivalence does not hold. -/
theorem c9_bounds_not_equivalent :
    writesInBounds 1 2 1 8 ∧ ¬(2 ≤ 1 ∧ 4 ≤ 8) := by
  exact ⟨by unfold writesInBounds allocBytes; decide, by decide⟩

/-- C9 amended: the conversion loop writes exactly
`numFrames * channels` int32 entries; `channels ≤ MAX_NUM_CHANNELS`
together with `SAMPLE_SIZE ≥ 4` is sufficient (though not necessary) for
every such write to stay inside the `init` allocation, and no definition in
the model checks this bound at runtime. -/
theorem c9_write_count_and_bound (fmt : SampleFormat) (vol : List Nat → List Nat)
    (inp : IterInput) (s : WorkerState) (ns ch mc ss : Nat)
    (hch : ch ≤ mc) (hss : 4 ≤ ss) :
    (workerIter fmt vol inp s).bdSamples.length = s.bdNumSamples * fmt.channels ∧
    writesInBounds ns ch mc ss := by
  constructor
  · simp [workerIter, swizzle]
  · unfold writesInBounds allocBytes
    calc 4 * (ns * ch) = ns * ch * 4 := by ring
    _ ≤ ns * mc * ss := Nat.mul_le_mul (Nat.mul_le_mul_left ns hch) hss

/-- Witness for C9 at channels 2 ≤ MAX 2 and SAMPLE_SIZE 4. -/
theorem c9_write_count_and_bound_witness :
    (2 ≤ 2 ∧ 4 ≤ 4) ∧
    ((workerIter ⟨2, 16, 48000⟩ id ⟨none, true⟩ (initMachine 1).s).bdSamples.length
        = (initMachine 1).s.bdNumSamples * 2 ∧
      writesInBounds 3 2 2 4) :=
  ⟨⟨by decide, by decide⟩,
    c9_write_count_and_bound ⟨2, 16, 48000⟩ id ⟨none, true⟩ (initMachine 1).s 3 2 2 4
      (by decide) (by decide)⟩

/-- C3: in an iteration where the queue cannot supply the frames
(`getPlayerChunkOrSilence` returns false), the output buffer holds all-zero
bytes over the whole `frameCount * frameSize` window, the iteration raises
nothing (the model is total), and it still converts that buffer and hands
the result to the device write as the newest element of the write trace. -/
theorem c3_underrun_silence (fmt : SampleFormat) (vol : List Nat → List Nat)
    (w : Bool) (s : WorkerState) :
    ((workerIter fmt vol ⟨none, w⟩ s).buffer).take (s.bdNumSamples * fmt.frameSize)
        = List.replicate (s.bdNumSamples * fmt.frameSize) 0 ∧
    s.bdNumSamples * fmt.frameSize ≤ (workerIter fmt vol ⟨none, w⟩ s).buffer.length ∧
    (workerIter fmt vol ⟨none, w⟩ s).writes
        = s.writes ++ [swizzle ((workerIter fmt vol ⟨none, w⟩ s).buffer) (fmt.bits / 8)
            (s.bdNumSamples * fmt.channels)] := by
  refine ⟨?_, ?_, rfl⟩
  · show (writeBytes (resizeTo s.buffer (s.bdNumSamples * fmt.frameSize))
        (List.replicate (s.bdNumSamples * fmt.frameSize) 0)).take
          (s.bdNumSamples * fmt.frameSize)
        = List.replicate (s.bdNumSamples * fmt.frameSize) 0
    unfold writeBytes
    rw [List.take_left']
    simp
  · show s.bdNumSamples * fmt.frameSize
        ≤ (writeBytes (resizeTo s.buffer (s.bdNumSamples * fmt.frameSize))
            (List.replicate (s.bdNumSamples * fmt.frameSize) 0)).length
    simp [writeBytes]

/-- C8: the volume scaling is applied exactly when real samples were
obtained: retrieval with a chunk reports true and the iteration's buffer is
`vol` of the raw filled bytes; retrieval without a chunk reports false and
the whole iteration result is independent of the volume function (and of
the discarded write result). -/
theorem c8_volume_iff_chunk (fmt : SampleFormat) (vol vol2 : List Nat → List Nat)
    (d : List Nat) (w w2 : Bool) (s : WorkerState) :
    (getPlayerChunkOrSilence (resizeTo s.buffer (s.bdNumSamples * fmt.frameSize))
        (s.bdNumSamples * fmt.frameSize) (some d)).1 = true ∧
    (getPlayerChunkOrSilence (resizeTo s.buffer (s.bdNumSamples * fmt.frameSize))
        (s.bdNumSamples * fmt.frameSize) none).1 = false ∧
    (workerIter fmt vol ⟨some d, w⟩ s).buffer
        = vol (getPlayerChunkOrSilence (resizeTo s.buffer (s.bdNumSamples * fmt.frameSize))
            (s.bdNumSamples * fmt.frameSize) (some d)).2 ∧
    workerIter fmt vol ⟨none, w⟩ s = workerIter fmt vol2 ⟨none, w2⟩ s :=
  ⟨rfl, rfl, rfl, rfl⟩

/-- The body pass `workerIter` never reads the device write result. -/
theorem workerIter_writeOk_irrel (fmt : SampleFormat) (vol : List Nat → List Nat)
    (c : Option (List Nat)) (w1 w2 : Bool) (s : WorkerState) :
    workerIter fmt vol ⟨c, w1⟩ s = workerIter fmt vol ⟨c, w2⟩ s := rfl

/-- An exited machine is a fixed point of `step`. -/
theorem step_of_exited (fmt : SampleFormat) (vol : List Nat → List Nat) (env : Env)
    (m : Machine) (h : m.exited = true) : step fmt vol env m = m := by
  simp [step, h]

/-- An exited machine is a fixed point of `run`. -/
theorem run_of_exited (fmt : SampleFormat) (vol : List Nat → List Nat) (env : Env)
    (n : Nat) (m : Machine) (h : m.exited = true) : run fmt vol env n m = m := by
  induction n with
  | zero => rfl
  | succ n ih => simp [run, step_of_exited, h, ih]

/-- A single step is unaffected by the environment's write results. -/
theorem step_writeOk_irrel (fmt : SampleFormat) (vol : List Nat → List Nat) (env : Env)
    (f : Nat → Bool) (m : Machine) :
    step fmt vol { env with writeOk := f } m = step fmt vol env m := by
  obtain ⟨ph, k, s, ex⟩ := m
  cases ex <;> cases ph <;> rfl

/-- A run is unaffected by the environment's write results. -/
theorem run_writeOk_irrel (fmt : SampleFormat) (vol : List Nat → List Nat) (env : Env)
    (f : Nat → Bool) (n : Nat) (m : Machine) :
    run fmt vol { env with writeOk := f } n m = run fmt vol env n m := by
  induction n generalizing m with
  | zero => rfl
  | succ n ih => simp [run, step_writeOk_irrel, ih]

/-- While `active_` reads true, no step exits the loop, whatever the wait,
chunk and write outcomes are. -/
theorem step_stays_live (fmt : SampleFormat) (vol : List Nat → List Nat) (env : Env)
    (m : Machine) (hact : ∀ j, env.active j = true) (h : m.exited = false) :
    (step fmt vol env m).exited = false := by
  obtain ⟨ph, k, s, ex⟩ := m
  cases ex
  · cases ph <;> simp [step, hact] <;> split_ifs <;> rfl
  · exact Bool.noConfusion h

/-- While `active_` reads true, no run exits the loop. -/
theorem run_stays_live (fmt : SampleFormat) (vol : List Nat → List Nat) (env : Env)
    (n : Nat) (m : Machine) (hact : ∀ j, env.active j = true) (h : m.exited = false) :
    (run fmt vol env n m).exited = false := by
  induction n generalizing m with
  | zero => exact h
  | succ n ih => simpa [run] using ih _ (step_stays_live fmt vol env m hact h)

/-- C5: the worker loop's continuation is decided only by `active_`:
(a) the run is unaffected by the device write results; (b) while `active_`
reads true the loop never exits, whatever the wait, chunk and write
outcomes; (c) once `active_` reads false from read-index T on, any live
machine whose `active_`-read counter has reached T exits within three
machine steps — at most one further body pass, i.e. within one loop
iteration. -/
theorem c5_exit_only_on_stop (fmt : SampleFormat) (vol : List Nat → List Nat)
    (env : Env) (f : Nat → Bool) (n N T : Nat) (m : Machine) :
    run fmt vol { env with writeOk := f } n m = run fmt vol env n m ∧
    ((∀ j, env.active j = true) → (run fmt vol env n (initMachine N)).exited = false) ∧
    ((∀ j, T ≤ j → env.active j = false) → m.exited = false → T ≤ m.k.a →
        (run fmt vol env 3 m).exited = true) := by
  refine ⟨run_writeOk_irrel fmt vol env f n m, ?_, ?_⟩
  · intro hact
    exact run_stays_live fmt vol env n (initMachine N) hact rfl
  · intro hstop hm ha
    obtain ⟨ph, k, s, ex⟩ := m
    have ha2 : T ≤ k.a := ha
    have h1 : env.active k.a = false := hstop k.a ha2
    have h2 : env.active (k.a + 1) = false := hstop (k.a + 1) (Nat.le_succ_of_le ha2)
    cases ex
    · cases ph <;> simp [run, step, h1, h2]
    · exact Bool.noConfusion hm

/-- Witness for C5: with `active_` constantly true the loop is still live
after two steps; with `active_` constantly false the loop has exited within
three steps of the initial machine. -/
theorem c5_exit_only_on_stop_witness :
    (run ⟨2, 16, 1000⟩ id
        ⟨fun _ => true, fun _ => true, fun _ => none, fun _ => true⟩ 2
        (initMachine 1)).exited = false ∧
    (run ⟨2, 16, 1000⟩ id
        ⟨fun _ => false, fun _ => true, fun _ => none, fun _ => true⟩ 3
        (initMachine 1)).exited = true :=
  ⟨(c5_exit_only_on_stop ⟨2, 16, 1000⟩ id
      ⟨fun _ => true, fun _ => true, fun _ => none, fun _ => true⟩ (fun _ => true)
      2 1 0 (initMachine 1)).2.1 (fun _ => rfl),
    (c5_exit_only_on_stop ⟨2, 16, 1000⟩ id
      ⟨fun _ => false, fun _ => true, fun _ => none, fun _ => true⟩ (fun _ => true)
      3 1 0 (initMachine 1)).2.2 (fun _ _ => rfl) rfl (Nat.zero_le _)⟩

/-- One machine step preserves "bd.num_samples equals N and every recorded
retrieval timeout equals the budget `N / msRate`". -/
theorem step_timeouts_inv (fmt : SampleFormat) (vol : List Nat → List Nat) (env : Env)
    (N : Nat) (m : Machine) (h1 : m.s.bdNumSamples = N)
    (h2 : ∀ t ∈ m.s.timeouts, t = timeBudget fmt N) :
    (step fmt vol env m).s.bdNumSamples = N ∧
    ∀ t ∈ (step fmt vol env m).s.timeouts, t = timeBudget fmt N := by
  obtain ⟨ph, k, s, ex⟩ := m
  have h1s : s.bdNumSamples = N := h1
  have h2s : ∀ t ∈ s.timeouts, t = timeBudget fmt N := h2
  cases ex
  · cases ph
    · simp only [step]
      split_ifs <;> exact ⟨h1s, h2s⟩
    · simp only [step]
      split_ifs <;> exact ⟨h1s, h2s⟩
    · refine ⟨h1s, ?_⟩
      intro t ht
      simp [step, workerIter] at ht
      rcases ht with ht | ht
      · exact h2s t ht
      · rw [ht, h1s]
  · exact ⟨h1, h2⟩

/-- A whole run preserves the timeout invariant. -/
theorem run_timeouts_inv (fmt : SampleFormat) (vol : List Nat → List Nat) (env : Env)
    (N n : Nat) (m : Machine) (h1 : m.s.bdNumSamples = N)
    (h2 : ∀ t ∈ m.s.timeouts, t = timeBudget fmt N) :
    (run fmt vol env n m).s.bdNumSamples = N ∧
    ∀ t ∈ (run fmt vol env n m).s.timeouts, t = timeBudget fmt N := by
  induction n generalizing m with
  | zero => exact ⟨h1, h2⟩
  | succ n ih =>
      have h := step_timeouts_inv fmt vol env N m h1 h2
      simpa [run] using ih _ h.1 h.2

/-- C7: every retrieval timeout recorded during a run of the worker loop
started with a device buffer of N frames equals
`N / (sampleRate / 1000)` — the `frames_per_buffer / (sampleRate/1000)`
budget computed at the top of each iteration. -/
theorem c7_retrieval_timeout_is_budget (fmt : SampleFormat)
    (vol : List Nat → List Nat) (env : Env) (n N t : Nat)
    (ht : t ∈ (run fmt vol env n (initMachine N)).s.timeouts) :
    t = N / (fmt.rate / 1000) := by
  have h := run_timeouts_inv fmt vol env N n (initMachine N) rfl (by simp [initMachine])
  exact h.2 t ht

/-- Witness for C7: a three-step run from a 2-frame buffer at 1000 Hz
records the timeout 2, which is `2 / (1000 / 1000)`. -/
theorem c7_retrieval_timeout_witness :
    2 ∈ (run ⟨2, 16, 1000⟩ id
        ⟨fun _ => true, fun _ => true, fun _ => none, fun _ => true⟩ 3
        (initMachine 2)).s.timeouts ∧
    (2 : Nat) = 2 / (1000 / 1000) :=
  ⟨by decide,
    c7_retrieval_timeout_is_budget ⟨2, 16, 1000⟩ id
      ⟨fun _ => true, fun _ => true, fun _ => none, fun _ => true⟩ 3 2 2 (by decide)⟩

end Snapcast
